import Mathlib

/-!
Shallow embedding of the vottik-backend polling service (FastAPI + SQLite).

Conventions of the embedding:
* Timestamps in the source are strings of the fixed format `YYYY-MM-DD HH:MM:SS`,
  compared lexicographically, which coincides with chronological order; instants
  are therefore modelled as `Nat` and the string comparison `a < b` becomes `a < b`
  on `Nat`.  Dates (`YYYY-MM-DD`) used by the quota tracker are likewise `Nat`.
* SQLite tables with a primary or unique key are modelled as functions from the
  key to `Option row`: `SELECT ... WHERE key = ?` is application, `UPDATE`/`DELETE`
  with a key equality are pointwise updates.  The votes and likes tables carry a
  `UNIQUE(user_id, poll_id)` constraint, the quota table a unique
  `(user_id, poll_date)` pair, so those keys index the tables.
* SQLite `INTEGER` columns are modelled as `Int` (they are signed and the source
  happily drives them below zero with `x = x - 1` updates); ids as `Nat`.
* Each endpoint is a pure function from the database state and its arguments to
  `Except ApiError (DB × String)`: `raise HTTPException(...)` becomes `.error`,
  a successful commit returns the new state plus the response message.
-/

set_option linter.unusedVariables false

/-- Two-valued poll choice, stored as the strings "gercek" and "efsane"
in the `vote_type` column of the votes table (`VoteType` enum in schemas.py). -/
inductive VoteType where
  | gercek
  | efsane
  deriving DecidableEq, Repr

/-- Row of the `polls` table as created by `init_db` in main.py, with the
columns the routers read and write.  The primary-key id is the lookup key of
the table and not repeated inside the row. -/
structure Poll where
  question : String
  user_id : Nat
  category_id : Nat
  gercek_votes : Int
  efsane_votes : Int
  likes_count : Int
  comments_count : Int
  created_at : Nat
  expires_at : Nat
  deriving DecidableEq, Repr

/-- Row of the `votes` table, keyed by the unique `(user_id, poll_id)` pair. -/
structure VoteRow where
  vote_type : VoteType
  created_at : Nat
  deriving DecidableEq, Repr

/-- Row of the `comments` table, keyed by its primary-key id. -/
structure CommentRow where
  user_id : Nat
  poll_id : Nat
  content : String
  is_active : Bool
  created_at : Nat
  updated_at : Nat
  deriving DecidableEq, Repr

/-- Database state: the tables of `init_db` the claims touch.  The likes table
stores its `created_at` column; the daily quota table stores `poll_count`. -/
structure DB where
  polls : Nat → Option Poll
  votes : Nat → Nat → Option VoteRow
  likes : Nat → Nat → Option Nat
  comments : Nat → Option CommentRow
  daily_limits : Nat → Nat → Option Nat
  categories : Nat → Bool
  next_poll_id : Nat
  next_comment_id : Nat

/-- Error outcome of an endpoint, mirroring the `HTTPException` status codes
raised in the source together with their `detail` strings. -/
inductive ApiError where
  | notFound (detail : String)
  | badRequest (detail : String)
  | forbidden (detail : String)
  | tooManyRequests (detail : String)
  deriving DecidableEq, Repr

deriving instance DecidableEq for Except

/-- `UPDATE polls SET ... WHERE id = ?`: apply `f` to the row with the given id. -/
def updPoll (db : DB) (poll_id : Nat) (f : Poll → Poll) : DB :=
  { db with polls := fun i => if i = poll_id then (db.polls i).map f else db.polls i }

/-- Write (insert, update or delete) the votes-table row of a `(user_id, poll_id)` key. -/
def setVote (db : DB) (user_id poll_id : Nat) (r : Option VoteRow) : DB :=
  { db with votes := fun u p => if u = user_id ∧ p = poll_id then r else db.votes u p }

/-- Write (insert or delete) the likes-table row of a `(user_id, poll_id)` key. -/
def setLike (db : DB) (user_id poll_id : Nat) (r : Option Nat) : DB :=
  { db with likes := fun u p => if u = user_id ∧ p = poll_id then r else db.likes u p }

/-- Write the comments-table row of a comment id. -/
def setComment (db : DB) (comment_id : Nat) (r : Option CommentRow) : DB :=
  { db with comments := fun i => if i = comment_id then r else db.comments i }

/-- Forget the database component of a result, keeping the outcome and message;
this is the part of an endpoint result on which equality is decidable. -/
def apiOutcome (r : Except ApiError (DB × String)) : Except ApiError String :=
  r.map (fun x => x.2)

/-- Counter of the polls row matching a choice: `gercek_votes` or `efsane_votes`. -/
def counterOf (p : Poll) : VoteType → Int
  | .gercek => p.gercek_votes
  | .efsane => p.efsane_votes

/-- The opposite of a choice. -/
def otherChoice : VoteType → VoteType
  | .gercek => .efsane
  | .efsane => .gercek

namespace Votes

/-- Embedding of `vote` in votes.py (POST on the votes router): look the poll up,
reject if absent or if `expires_at < now`, then branch on an existing vote of the
user: same choice is a no-op with its own message, a different choice updates the
stored row and moves one unit between the two counters, no prior vote inserts a
row and increments the matching counter. -/
def vote (db : DB) (user_id poll_id : Nat) (vote_type : VoteType) (now : Nat) :
    Except ApiError (DB × String) :=
  match db.polls poll_id with
  | none => .error (.notFound "Anket bulunamadı")
  | some poll =>
    if poll.expires_at < now then
      .error (.badRequest "Bu anketin süresi dolmuş")
    else
      match db.votes user_id poll_id with
      | some existing_vote =>
        if existing_vote.vote_type = vote_type then
          .ok (db, "Zaten bu şekilde oy vermişsiniz")
        else
          let db1 : DB :=
            setVote db user_id poll_id (some { existing_vote with vote_type := vote_type })
          let db2 : DB :=
            if vote_type = .gercek then
              updPoll db1 poll_id (fun p =>
                { p with gercek_votes := p.gercek_votes + 1, efsane_votes := p.efsane_votes - 1 })
            else
              updPoll db1 poll_id (fun p =>
                { p with efsane_votes := p.efsane_votes + 1, gercek_votes := p.gercek_votes - 1 })
          .ok (db2, "Oyunuz değiştirildi")
      | none =>
        let db1 : DB :=
          setVote db user_id poll_id (some { vote_type := vote_type, created_at := now })
        let db2 : DB :=
          if vote_type = .gercek then
            updPoll db1 poll_id (fun p => { p with gercek_votes := p.gercek_votes + 1 })
          else
            updPoll db1 poll_id (fun p => { p with efsane_votes := p.efsane_votes + 1 })
        .ok (db2, "Oyunuz kaydedildi")

/-- Embedding of `remove_vote` in votes.py (DELETE on the votes router): reject if
the poll is absent or `expires_at < now`, reject if the user holds no vote, else
delete the vote row and decrement the counter matching the retracted choice. -/
def remove_vote (db : DB) (user_id poll_id : Nat) (now : Nat) :
    Except ApiError (DB × String) :=
  match db.polls poll_id with
  | none => .error (.notFound "Anket bulunamadı")
  | some poll =>
    if poll.expires_at < now then
      .error (.badRequest "Bu anketin süresi dolmuş")
    else
      match db.votes user_id poll_id with
      | none => .error (.notFound "Bu ankete oy vermemişsiniz")
      | some v =>
        let db1 : DB := setVote db user_id poll_id none
        let db2 : DB :=
          if v.vote_type = .gercek then
            updPoll db1 poll_id (fun p => { p with gercek_votes := p.gercek_votes - 1 })
          else
            updPoll db1 poll_id (fun p => { p with efsane_votes := p.efsane_votes - 1 })
        .ok (db2, "Oyunuz geri çekildi")

end Votes

namespace Users

/-- Embedding of `like_poll` in users.py (POST on the users router): reject if the
poll is absent or `expires_at < now`, reject if a like row for the pair already
exists, else insert the like row (storing `now`) and increment `likes_count`. -/
def like_poll (db : DB) (user_id poll_id : Nat) (now : Nat) :
    Except ApiError (DB × String) :=
  match db.polls poll_id with
  | none => .error (.notFound "Anket bulunamadı")
  | some poll =>
    if poll.expires_at < now then
      .error (.badRequest "Bu anketin süresi dolmuş")
    else
      match db.likes user_id poll_id with
      | some _ => .error (.badRequest "Bu anketi zaten beğenmişsiniz")
      | none =>
        let db1 := setLike db user_id poll_id (some now)
        let db2 := updPoll db1 poll_id (fun p => { p with likes_count := p.likes_count + 1 })
        .ok (db2, "Anket beğenildi")

/-- Embedding of `unlike_poll` in users.py (DELETE on the users router): reject with
NotFound if no like row exists for the pair, else delete it and decrement
`likes_count`.  Note the source performs no poll-existence or expiry check here. -/
def unlike_poll (db : DB) (user_id poll_id : Nat) :
    Except ApiError (DB × String) :=
  match db.likes user_id poll_id with
  | none => .error (.notFound "Bu anketi beğenmemişsiniz")
  | some _ =>
    let db1 := setLike db user_id poll_id none
    let db2 := updPoll db1 poll_id (fun p => { p with likes_count := p.likes_count - 1 })
    .ok (db2, "Beğeni kaldırıldı")

end Users

namespace Comments

/-- Lookup of `SELECT ... FROM comments WHERE id = ? AND is_active = 1`. -/
def findActiveComment (db : DB) (comment_id : Nat) : Option CommentRow :=
  match db.comments comment_id with
  | some c => if c.is_active then some c else none
  | none => none

/-- Embedding of `create_comment` in comments.py: reject if the poll is absent or
`expires_at < now`, else insert the comment row at the next id with
`is_active = 1` and equal creation and update instants, and increment the
`comments_count` of the owning poll. -/
def create_comment (db : DB) (user_id poll_id : Nat) (content : String) (now : Nat) :
    Except ApiError (DB × String) :=
  match db.polls poll_id with
  | none => .error (.notFound "Anket bulunamadı")
  | some poll =>
    if poll.expires_at < now then
      .error (.badRequest "Bu anketin süresi dolmuş, yorum yapılamaz")
    else
      let comment_id := db.next_comment_id
      let row : CommentRow :=
        { user_id := user_id, poll_id := poll_id, content := content,
          is_active := true, created_at := now, updated_at := now }
      let db1 := setComment db comment_id (some row)
      let db2 := { db1 with next_comment_id := comment_id + 1 }
      let db3 := updPoll db2 poll_id (fun p => { p with comments_count := p.comments_count + 1 })
      .ok (db3, content)

/-- Embedding of `update_comment` in comments.py: look the comment up with
`is_active = 1`, reject NotFound if absent, reject Forbidden unless the requester
is the author (the editor flag of the requester is not consulted here, matching
the source, whose docstring reads "sadece kendi yorumu"), else overwrite the
content and the update instant. -/
def update_comment (db : DB) (user_id : Nat) (is_editor : Bool) (comment_id : Nat)
    (content : String) (now : Nat) : Except ApiError (DB × String) :=
  match findActiveComment db comment_id with
  | none => .error (.notFound "Yorum bulunamadı")
  | some c =>
    if c.user_id ≠ user_id then
      .error (.forbidden "Bu yorumu düzenleme yetkiniz yok")
    else
      let db1 := setComment db comment_id (some { c with content := content, updated_at := now })
      .ok (db1, content)

/-- Embedding of `delete_comment` in comments.py: look the comment up with
`is_active = 1`, reject NotFound if absent, reject Forbidden unless the requester
is the author or an editor, else soft-delete by clearing `is_active` (the row
stays in the table) and decrement the `comments_count` of the owning poll. -/
def delete_comment (db : DB) (user_id : Nat) (is_editor : Bool) (comment_id : Nat) :
    Except ApiError (DB × String) :=
  match findActiveComment db comment_id with
  | none => .error (.notFound "Yorum bulunamadı")
  | some c =>
    if c.user_id ≠ user_id ∧ ¬ is_editor then
      .error (.forbidden "Bu yorumu silme yetkiniz yok")
    else
      let db1 := setComment db comment_id (some { c with is_active := false })
      let db2 := updPoll db1 c.poll_id (fun p => { p with comments_count := p.comments_count - 1 })
      .ok (db2, "Yorum silindi")

end Comments

namespace Polls

/-- Daily poll-creation limit, `DAILY_POLL_LIMIT = 2` in polls.py. -/
def DAILY_POLL_LIMIT : Int := 2

/-- Poll duration, `POLL_DURATION_DAYS = 7` in polls.py, in seconds. -/
def POLL_DURATION_SECONDS : Nat := 7 * 24 * 60 * 60

/-- Embedding of `check_daily_limit` in polls.py: read the per-day counter row of
`(user_id, today)` and return `max(0, DAILY_POLL_LIMIT - poll_count)`, or the full
limit when no row exists. -/
def check_daily_limit (db : DB) (user_id today : Nat) : Int :=
  match db.daily_limits user_id today with
  | some cnt => max 0 (DAILY_POLL_LIMIT - (cnt : Int))
  | none => DAILY_POLL_LIMIT

/-- Embedding of `increment_daily_count` in polls.py: upsert of the per-day
counter, inserting 1 when no row exists and adding 1 otherwise. -/
def increment_daily_count (db : DB) (user_id today : Nat) : DB :=
  { db with daily_limits := fun u d =>
      if u = user_id ∧ d = today then some (((db.daily_limits u d).getD 0) + 1)
      else db.daily_limits u d }

/-- Embedding of `create_poll` in polls.py: a non-editor with no remaining quota is
rejected with 429; an unknown category is rejected with 400; otherwise the poll is
inserted with zeroed counters and `expires_at = now + 7 days`, and the daily
counter is incremented exactly when the creator is not an editor.  The returned
value is the new poll id. -/
def create_poll (db : DB) (user_id : Nat) (is_editor : Bool) (category_id : Nat)
    (question : String) (now today : Nat) : Except ApiError (DB × Nat) :=
  if ¬ is_editor ∧ check_daily_limit db user_id today ≤ 0 then
    .error (.tooManyRequests "Günlük anket limitinizi doldurdunuz. Yarın tekrar deneyin.")
  else if ¬ db.categories category_id then
    .error (.badRequest "Geçersiz kategori")
  else
    let poll_id := db.next_poll_id
    let row : Poll :=
      { question := question, user_id := user_id, category_id := category_id,
        gercek_votes := 0, efsane_votes := 0, likes_count := 0, comments_count := 0,
        created_at := now, expires_at := now + POLL_DURATION_SECONDS }
    let db1 : DB := { db with
      polls := fun i => if i = poll_id then some row else db.polls i,
      next_poll_id := poll_id + 1 }
    let db2 : DB := if is_editor then db1 else increment_daily_count db1 user_id today
    .ok (db2, poll_id)

/-- Rounding used by the SQLite expression
`ROUND(CAST(gercek AS FLOAT) / (gercek + efsane) * 100)`: on a non-negative
rational `100 * g / t` SQLite rounds half away from zero, which for non-negative
values is `⌊x + 1/2⌋`, here expressed with natural division. -/
def roundPct (g t : Nat) : Nat := (200 * g + t) / (2 * t)

/-- Embedding of the SQL `CASE` column `gercek_percentage` computed by every poll
read query in polls.py and users.py: the rounded percentage when the vote total is
positive, else 50. -/
def sql_gercek_percentage (g e : Nat) : Nat :=
  if g + e > 0 then roundPct g (g + e) else 50

/-- Embedding of the `gercek_percentage` field of `format_poll_response` in
polls.py (and of the identical inline dict in users.py):
`poll_row[17] if poll_row[17] else 50`, so a computed percentage of 0 is falsy in
Python and is replaced by 50. -/
def format_poll_response_pct (g e : Nat) : Nat :=
  let pct := sql_gercek_percentage g e
  if pct = 0 then 50 else pct

/-- Embedding of the `calculate_efsane_percentage` validator of `PollResponse` in
schemas.py: `100 - gercek_percentage`. -/
def calculate_efsane_percentage (gercek_percentage : Int) : Int :=
  100 - gercek_percentage

/-- Modelled from the spec, for comparison with the code: the percentage exactly as
the claim states it, `round(100*gercek_votes/total)` when the total is positive and
50 otherwise, with no substitution of the value 0. -/
def spec_gercek_percentage (g e : Nat) : Nat :=
  if g + e = 0 then 50 else roundPct g (g + e)

end Polls

namespace MainApp

/-- Embedding of `vote` in main.py (the self-contained deployment app): no poll
existence or expiry check; an existing vote row has its `vote_type` overwritten and
the counters move only when the choice changed; a fresh vote inserts the row and
increments the matching counter; every path returns the same message. -/
def vote (db : DB) (user_id poll_id : Nat) (vote_type : VoteType) (now : Nat) :
    DB × String :=
  match db.votes user_id poll_id with
  | some existing =>
    let db1 := setVote db user_id poll_id (some { existing with vote_type := vote_type })
    let db2 :=
      if existing.vote_type ≠ vote_type then
        if vote_type = .gercek then
          updPoll db1 poll_id (fun p =>
            { p with gercek_votes := p.gercek_votes + 1, efsane_votes := p.efsane_votes - 1 })
        else
          updPoll db1 poll_id (fun p =>
            { p with efsane_votes := p.efsane_votes + 1, gercek_votes := p.gercek_votes - 1 })
      else db1
    (db2, "Oy kaydedildi")
  | none =>
    let db1 := setVote db user_id poll_id (some { vote_type := vote_type, created_at := now })
    let db2 :=
      if vote_type = .gercek then
        updPoll db1 poll_id (fun p => { p with gercek_votes := p.gercek_votes + 1 })
      else
        updPoll db1 poll_id (fun p => { p with efsane_votes := p.efsane_votes + 1 })
    (db2, "Oy kaydedildi")

/-- Embedding of `like_poll` in main.py: reject if a like row exists, else insert
and increment `likes_count`; no poll existence or expiry check. -/
def like_poll (db : DB) (user_id poll_id : Nat) (now : Nat) :
    Except ApiError (DB × String) :=
  match db.likes user_id poll_id with
  | some _ => .error (.badRequest "Zaten beğendiniz")
  | none =>
    let db1 := setLike db user_id poll_id (some now)
    let db2 := updPoll db1 poll_id (fun p => { p with likes_count := p.likes_count + 1 })
    .ok (db2, "Beğenildi")

/-- Embedding of `unlike_poll` in main.py: `DELETE FROM likes WHERE user_id = ? AND
poll_id = ?` followed unconditionally by `likes_count = likes_count - 1`; there is
no check that a like row existed, so the decrement always happens. -/
def unlike_poll (db : DB) (user_id poll_id : Nat) : DB × String :=
  let db1 := setLike db user_id poll_id none
  let db2 := updPoll db1 poll_id (fun p => { p with likes_count := p.likes_count - 1 })
  (db2, "Beğeni kaldırıldı")

end MainApp

/-! Concrete database fixtures used to instantiate the theorems. -/

/-- Database with no rows at all. -/
def emptyDB : DB :=
  { polls := fun _ => none, votes := fun _ _ => none, likes := fun _ _ => none,
    comments := fun _ => none, daily_limits := fun _ _ => none,
    categories := fun _ => false, next_poll_id := 1, next_comment_id := 1 }

/-- Insert a polls-table row at a given id (test scaffolding). -/
def putPoll (db : DB) (i : Nat) (p : Poll) : DB :=
  { db with polls := fun j => if j = i then some p else db.polls j }

/-- A freshly created poll with zeroed counters, expiring at instant 100. -/
def pollA : Poll :=
  { question := "Bu iddia gerçek mi efsane mi", user_id := 1, category_id := 1,
    gercek_votes := 0, efsane_votes := 0, likes_count := 0, comments_count := 0,
    created_at := 0, expires_at := 100 }

/-- The fresh poll after one gercek vote. -/
def pollB : Poll := { pollA with gercek_votes := 1 }

/-- Database holding only the fresh poll, with id 1. -/
def dbPollA : DB := putPoll emptyDB 1 pollA

/-- Database where user 7 already voted gercek on poll 1. -/
def dbVoted : DB :=
  setVote (putPoll emptyDB 1 pollB) 7 1 (some { vote_type := .gercek, created_at := 10 })

/-- Database where user 7 already likes poll 1. -/
def dbLiked : DB :=
  setLike (putPoll emptyDB 1 { pollA with likes_count := 1 }) 7 1 (some 10)

/-- An active comment by user 1 on poll 1. -/
def commentA : CommentRow :=
  { user_id := 1, poll_id := 1, content := "ilk yorum", is_active := true,
    created_at := 5, updated_at := 5 }

/-- Database with poll 1 carrying one active comment with id 1. -/
def dbComment : DB :=
  setComment (putPoll emptyDB 1 { pollA with comments_count := 1 }) 1 (some commentA)

/-- Database where user 7 has exhausted the daily quota on day 40; category 3 exists. -/
def dbQuotaFull : DB :=
  { emptyDB with
    daily_limits := fun u d => if u = 7 ∧ d = 40 then some 2 else none,
    categories := fun c => c = 3 }

/-! Theorems settling the claims. -/

/-- C1: the reported gercek percentage is the SQL-computed rounded percentage
except that the value 0 is falsy in the Python expression
`poll_row[17] if poll_row[17] else 50` of `format_poll_response`, so a poll with
`gercek_votes = 0` and `efsane_votes = 1` reports 50, while the formula of the
claim, modelled by `spec_gercek_percentage`, yields 0 there. -/
theorem format_poll_response_pct_zero_bug :
    Polls.sql_gercek_percentage 0 1 = 0 ∧
    Polls.format_poll_response_pct 0 1 = 50 ∧
    Polls.spec_gercek_percentage 0 1 = 0 ∧
    Polls.calculate_efsane_percentage 50 = 50 := by
  decide

/-- C2 counterexample: at the exact instant `now = expires_at` (here 100) none of
vote, like, comment is rejected as expired: the source gate is
`expires_at < now`, so the boundary request passes and mutates state, refuting
the claim that `now = expires_at` is rejected. -/
theorem boundary_instant_not_rejected :
    apiOutcome (Votes.vote dbPollA 7 1 .gercek 100) = .ok "Oyunuz kaydedildi" ∧
    apiOutcome (Users.like_poll dbPollA 7 1 100) = .ok "Anket beğenildi" ∧
    apiOutcome (Comments.create_comment dbPollA 7 1 "güzel anket" 100) = .ok "güzel anket" := by
  decide

/-- C2 amended: for a poll that exists, each of vote, like and comment fails with
the Expired rejection exactly when `expires_at < now`, i.e. strictly after the
expiry instant; at `now = expires_at` the expiry gate passes. -/
theorem expiry_gate_strict (db : DB) (u pid : Nat) (ct : VoteType) (now : Nat)
    (content : String) (poll : Poll) (hp : db.polls pid = some poll) :
    (apiOutcome (Votes.vote db u pid ct now) =
        .error (.badRequest "Bu anketin süresi dolmuş") ↔ poll.expires_at < now) ∧
    (apiOutcome (Users.like_poll db u pid now) =
        .error (.badRequest "Bu anketin süresi dolmuş") ↔ poll.expires_at < now) ∧
    (apiOutcome (Comments.create_comment db u pid content now) =
        .error (.badRequest "Bu anketin süresi dolmuş, yorum yapılamaz") ↔
      poll.expires_at < now) := by
  refine ⟨?_, ?_, ?_⟩
  · by_cases h : poll.expires_at < now
    · simp [Votes.vote, hp, h, apiOutcome, Except.map]
    · rcases hv : db.votes u pid with _ | v
      · simp [Votes.vote, hp, h, hv, apiOutcome, Except.map]
      · by_cases hvt : v.vote_type = ct <;>
          simp [Votes.vote, hp, h, hv, hvt, apiOutcome, Except.map]
  · by_cases h : poll.expires_at < now
    · simp [Users.like_poll, hp, h, apiOutcome, Except.map]
    · rcases hl : db.likes u pid with _ | t <;>
        simp [Users.like_poll, hp, h, hl, apiOutcome, Except.map]
  · by_cases h : poll.expires_at < now
    · simp [Comments.create_comment, hp, h, apiOutcome, Except.map]
    · simp [Comments.create_comment, hp, h, apiOutcome, Except.map]

/-- C2 witness: the amended expiry gate instantiated on the concrete fresh poll. -/
theorem expiry_gate_strict_witness :
    dbPollA.polls 1 = some pollA ∧
    ((apiOutcome (Votes.vote dbPollA 7 1 .gercek 100) =
        .error (.badRequest "Bu anketin süresi dolmuş") ↔ pollA.expires_at < 100) ∧
     (apiOutcome (Users.like_poll dbPollA 7 1 100) =
        .error (.badRequest "Bu anketin süresi dolmuş") ↔ pollA.expires_at < 100) ∧
     (apiOutcome (Comments.create_comment dbPollA 7 1 "güzel anket" 100) =
        .error (.badRequest "Bu anketin süresi dolmuş, yorum yapılamaz") ↔
       pollA.expires_at < 100)) :=
  ⟨rfl, expiry_gate_strict dbPollA 7 1 .gercek 100 "güzel anket" pollA rfl⟩

/-- C6: starting from the freshly created poll (all counters zero, no like rows),
a single unlike through the main.py endpoint deletes nothing yet still decrements
`likes_count`, driving it to -1 and violating the non-negativity invariant; the
users.py router version of the same operation correctly rejects with NotFound. -/
theorem main_unlike_drives_likes_negative :
    ((MainApp.unlike_poll dbPollA 7 1).1.polls 1).map Poll.likes_count = some (-1) ∧
    apiOutcome (Users.unlike_poll dbPollA 7 1) =
      .error (.notFound "Bu anketi beğenmemişsiniz") := by
  decide

/-- C3 counterexample: in the main.py vote endpoint a same-choice revote (user 7
already voted gercek on poll 1) returns exactly the message a fresh vote returns,
"Oy kaydedildi", so the caller cannot distinguish the no-op from a fresh vote
there, refuting the distinguishability part of the claim; the counters and the
stored row are indeed unchanged. -/
theorem main_vote_same_choice_indistinguishable :
    (MainApp.vote dbVoted 7 1 .gercek 20).2 = "Oy kaydedildi" ∧
    (MainApp.vote dbPollA 8 1 .gercek 20).2 = "Oy kaydedildi" ∧
    (MainApp.vote dbVoted 7 1 .gercek 20).1.polls 1 = dbVoted.polls 1 ∧
    (MainApp.vote dbVoted 7 1 .gercek 20).1.votes 7 1 = dbVoted.votes 7 1 := by
  decide

/-- C3 amended: a same-choice revote leaves counters and the stored vote row
unchanged in both implementations; the votes.py router returns the dedicated
message "Zaten bu şekilde oy vermişsiniz", distinct from the fresh-vote message,
while the main.py endpoint returns the same "Oy kaydedildi" as a fresh vote. -/
theorem revote_same_choice_noop (db : DB) (u pid : Nat) (ct : VoteType) (now : Nat)
    (poll : Poll) (v : VoteRow) (hp : db.polls pid = some poll)
    (hact : ¬ poll.expires_at < now) (hv : db.votes u pid = some v)
    (hsame : v.vote_type = ct) :
    Votes.vote db u pid ct now = .ok (db, "Zaten bu şekilde oy vermişsiniz") ∧
    "Zaten bu şekilde oy vermişsiniz" ≠ "Oyunuz kaydedildi" ∧
    (MainApp.vote db u pid ct now).1.polls pid = some poll ∧
    (MainApp.vote db u pid ct now).1.votes u pid = some v ∧
    (MainApp.vote db u pid ct now).2 = "Oy kaydedildi" := by
  subst hsame
  refine ⟨?_, by simp, ?_, ?_, ?_⟩
  · simp [Votes.vote, hp, hact, hv]
  · simp [MainApp.vote, hv, setVote, updPoll, hp]
  · simp [MainApp.vote, hv, setVote, updPoll]
  · simp [MainApp.vote, hv]

/-- C3 witness: the amended no-op statement instantiated on the concrete database
where user 7 already voted gercek on poll 1. -/
theorem revote_same_choice_noop_witness :
    (dbVoted.polls 1 = some pollB ∧ ¬ pollB.expires_at < 20 ∧
     dbVoted.votes 7 1 = some { vote_type := .gercek, created_at := 10 }) ∧
    (Votes.vote dbVoted 7 1 .gercek 20 = .ok (dbVoted, "Zaten bu şekilde oy vermişsiniz") ∧
     "Zaten bu şekilde oy vermişsiniz" ≠ "Oyunuz kaydedildi" ∧
     (MainApp.vote dbVoted 7 1 .gercek 20).1.polls 1 = some pollB ∧
     (MainApp.vote dbVoted 7 1 .gercek 20).1.votes 7 1 =
       some { vote_type := .gercek, created_at := 10 } ∧
     (MainApp.vote dbVoted 7 1 .gercek 20).2 = "Oy kaydedildi") :=
  ⟨⟨rfl, by decide, rfl⟩,
   revote_same_choice_noop dbVoted 7 1 .gercek 20 pollB _ rfl (by decide) rfl rfl⟩

/-- C4: flipping an existing vote to the opposite choice updates the stored row,
increments the counter of the new choice by exactly 1, decrements the counter of
the old choice by exactly 1, and therefore preserves the sum of the two counters
exactly. -/
theorem vote_flip_preserves_total (db : DB) (u pid : Nat) (ct : VoteType) (now : Nat)
    (poll : Poll) (v : VoteRow) (hp : db.polls pid = some poll)
    (hact : ¬ poll.expires_at < now) (hv : db.votes u pid = some v)
    (hdiff : v.vote_type ≠ ct) :
    ∃ db', Votes.vote db u pid ct now = .ok (db', "Oyunuz değiştirildi") ∧
      db'.votes u pid = some { v with vote_type := ct } ∧
      ∃ poll', db'.polls pid = some poll' ∧
        counterOf poll' ct = counterOf poll ct + 1 ∧
        counterOf poll' v.vote_type = counterOf poll v.vote_type - 1 ∧
        poll'.gercek_votes + poll'.efsane_votes =
          poll.gercek_votes + poll.efsane_votes := by
  cases ct with
  | gercek =>
    cases hvt : v.vote_type with
    | gercek => exact absurd hvt hdiff
    | efsane =>
      refine ⟨updPoll (setVote db u pid (some { vote_type := .gercek, created_at := v.created_at }))
          pid (fun p => { p with gercek_votes := p.gercek_votes + 1,
                                 efsane_votes := p.efsane_votes - 1 }),
        by simp [Votes.vote, hp, hact, hv, hvt],
        by simp [updPoll, setVote],
        { poll with gercek_votes := poll.gercek_votes + 1,
                    efsane_votes := poll.efsane_votes - 1 },
        by simp [updPoll, setVote, hp],
        rfl, rfl, ?_⟩
      show poll.gercek_votes + 1 + (poll.efsane_votes - 1) =
        poll.gercek_votes + poll.efsane_votes
      omega
  | efsane =>
    cases hvt : v.vote_type with
    | efsane => exact absurd hvt hdiff
    | gercek =>
      refine ⟨updPoll (setVote db u pid (some { vote_type := .efsane, created_at := v.created_at }))
          pid (fun p => { p with efsane_votes := p.efsane_votes + 1,
                                 gercek_votes := p.gercek_votes - 1 }),
        by simp [Votes.vote, hp, hact, hv, hvt],
        by simp [updPoll, setVote],
        { poll with efsane_votes := poll.efsane_votes + 1,
                    gercek_votes := poll.gercek_votes - 1 },
        by simp [updPoll, setVote, hp],
        rfl, rfl, ?_⟩
      show poll.gercek_votes - 1 + (poll.efsane_votes + 1) =
        poll.gercek_votes + poll.efsane_votes
      omega

/-- C4 witness: the flip statement instantiated on the concrete database where
user 7 votes efsane after having voted gercek on poll 1. -/
theorem vote_flip_preserves_total_witness :
    (dbVoted.polls 1 = some pollB ∧ ¬ pollB.expires_at < 20 ∧
     dbVoted.votes 7 1 = some { vote_type := .gercek, created_at := 10 } ∧
     VoteType.gercek ≠ VoteType.efsane) ∧
    (∃ db', Votes.vote dbVoted 7 1 .efsane 20 = .ok (db', "Oyunuz değiştirildi") ∧
      db'.votes 7 1 = some { vote_type := .efsane, created_at := 10 } ∧
      ∃ poll', db'.polls 1 = some poll' ∧
        counterOf poll' .efsane = counterOf pollB .efsane + 1 ∧
        counterOf poll' .gercek = counterOf pollB .gercek - 1 ∧
        poll'.gercek_votes + poll'.efsane_votes =
          pollB.gercek_votes + pollB.efsane_votes) :=
  ⟨⟨rfl, by decide, rfl, by decide⟩,
   vote_flip_preserves_total dbVoted 7 1 .efsane 20 pollB _ rfl (by decide) rfl
     (by decide)⟩

/-- C5: on an existing poll, retracting a vote fails Expired when the poll is
already expired, fails NotFound when the (unexpired) poll holds no vote of the
calling user, and otherwise deletes the vote row and decrements by exactly 1 the
counter matching the retracted choice, leaving the opposite counter unchanged. -/
theorem remove_vote_spec (db : DB) (u pid now : Nat) (poll : Poll)
    (hp : db.polls pid = some poll) :
    (poll.expires_at < now →
      Votes.remove_vote db u pid now = .error (.badRequest "Bu anketin süresi dolmuş")) ∧
    (¬ poll.expires_at < now → db.votes u pid = none →
      Votes.remove_vote db u pid now = .error (.notFound "Bu ankete oy vermemişsiniz")) ∧
    (∀ v, ¬ poll.expires_at < now → db.votes u pid = some v →
      ∃ db', Votes.remove_vote db u pid now = .ok (db', "Oyunuz geri çekildi") ∧
        db'.votes u pid = none ∧
        ∃ poll', db'.polls pid = some poll' ∧
          counterOf poll' v.vote_type = counterOf poll v.vote_type - 1 ∧
          counterOf poll' (otherChoice v.vote_type) =
            counterOf poll (otherChoice v.vote_type)) := by
  refine ⟨?_, ?_, ?_⟩
  · intro h
    simp [Votes.remove_vote, hp, h]
  · intro h hv
    simp [Votes.remove_vote, hp, h, hv]
  · intro v h hv
    cases hvt : v.vote_type with
    | gercek =>
      refine ⟨updPoll (setVote db u pid none) pid
          (fun p => { p with gercek_votes := p.gercek_votes - 1 }),
        by simp [Votes.remove_vote, hp, h, hv, hvt],
        by simp [updPoll, setVote],
        { poll with gercek_votes := poll.gercek_votes - 1 },
        by simp [updPoll, setVote, hp],
        rfl, rfl⟩
    | efsane =>
      refine ⟨updPoll (setVote db u pid none) pid
          (fun p => { p with efsane_votes := p.efsane_votes - 1 }),
        by simp [Votes.remove_vote, hp, h, hv, hvt],
        by simp [updPoll, setVote],
        { poll with efsane_votes := poll.efsane_votes - 1 },
        by simp [updPoll, setVote, hp],
        rfl, rfl⟩

/-- C5 witness: the retract statement instantiated on the concrete database with
the fresh poll (for the NotFound part) and the voted database (for the deletion
part), at the unexpired instant 20. -/
theorem remove_vote_spec_witness :
    dbVoted.polls 1 = some pollB ∧
    ((pollB.expires_at < 20 →
      Votes.remove_vote dbVoted 7 1 20 = .error (.badRequest "Bu anketin süresi dolmuş")) ∧
     (¬ pollB.expires_at < 20 → dbVoted.votes 7 1 = none →
      Votes.remove_vote dbVoted 7 1 20 = .error (.notFound "Bu ankete oy vermemişsiniz")) ∧
     (∀ v, ¬ pollB.expires_at < 20 → dbVoted.votes 7 1 = some v →
      ∃ db', Votes.remove_vote dbVoted 7 1 20 = .ok (db', "Oyunuz geri çekildi") ∧
        db'.votes 7 1 = none ∧
        ∃ poll', db'.polls 1 = some poll' ∧
          counterOf poll' v.vote_type = counterOf pollB v.vote_type - 1 ∧
          counterOf poll' (otherChoice v.vote_type) =
            counterOf pollB (otherChoice v.vote_type))) :=
  ⟨rfl, remove_vote_spec dbVoted 7 1 20 pollB rfl⟩

/-- C7: the remaining daily quota equals `max 0 (limit - used)` with `used = 0`
when no counter row exists; a non-editor whose remaining quota is 0 is rejected
with the 429 quota error on poll creation; an editor is only ever rejected for an
invalid category, never for quota, and editor creations leave the quota table
untouched. -/
theorem daily_quota_spec (db : DB) (u today cat : Nat) (q : String) (now : Nat) :
    Polls.check_daily_limit db u today =
      max 0 (Polls.DAILY_POLL_LIMIT - ((db.daily_limits u today).getD 0 : Int)) ∧
    (Polls.check_daily_limit db u today ≤ 0 →
      Polls.create_poll db u false cat q now today =
        .error (.tooManyRequests "Günlük anket limitinizi doldurdunuz. Yarın tekrar deneyin.")) ∧
    (∀ e, Polls.create_poll db u true cat q now today = .error e →
      e = .badRequest "Geçersiz kategori") ∧
    (∀ db' pid, Polls.create_poll db u true cat q now today = .ok (db', pid) →
      db'.daily_limits = db.daily_limits) := by
  refine ⟨?_, ?_, ?_, ?_⟩
  · rcases hq : db.daily_limits u today with _ | cnt <;>
      simp [Polls.check_daily_limit, hq, Polls.DAILY_POLL_LIMIT]
  · intro h
    simp [Polls.create_poll, h]
  · intro e he
    by_cases hc : db.categories cat <;>
      simp [Polls.create_poll, hc] at he
    exact he.symm
  · intro db' pid h
    by_cases hc : db.categories cat <;>
      simp [Polls.create_poll, hc] at h
    rw [← h.1]

/-- C7 witness: the quota statement instantiated on the database where user 7 has
already created 2 polls on day 40, so the remaining quota is 0 and the hypothesis
of the rejection part holds. -/
theorem daily_quota_spec_witness :
    Polls.check_daily_limit dbQuotaFull 7 40 ≤ 0 ∧
    (Polls.check_daily_limit dbQuotaFull 7 40 =
      max 0 (Polls.DAILY_POLL_LIMIT - ((dbQuotaFull.daily_limits 7 40).getD 0 : Int)) ∧
    (Polls.check_daily_limit dbQuotaFull 7 40 ≤ 0 →
      Polls.create_poll dbQuotaFull 7 false 3 "Bu iddia gerçek mi" 50 40 =
        .error (.tooManyRequests "Günlük anket limitinizi doldurdunuz. Yarın tekrar deneyin.")) ∧
    (∀ e, Polls.create_poll dbQuotaFull 7 true 3 "Bu iddia gerçek mi" 50 40 = .error e →
      e = .badRequest "Geçersiz kategori") ∧
    (∀ db' pid, Polls.create_poll dbQuotaFull 7 true 3 "Bu iddia gerçek mi" 50 40 = .ok (db', pid) →
      db'.daily_limits = dbQuotaFull.daily_limits)) :=
  ⟨by decide, daily_quota_spec dbQuotaFull 7 40 3 "Bu iddia gerçek mi" 50⟩

/-- C8: on an existing active poll, liking with an existing like row fails
AlreadyLiked, liking without one inserts the row and increments `likes_count` by
exactly 1; unliking without a like row fails NotFound, unliking with one deletes
the row and decrements `likes_count` by exactly 1 — which yields the stated
like, like, unlike, unlike sequence behaviour. -/
theorem like_unlike_spec (db : DB) (u pid now : Nat) (poll : Poll)
    (hp : db.polls pid = some poll) (hact : ¬ poll.expires_at < now) :
    (∀ t, db.likes u pid = some t →
      Users.like_poll db u pid now = .error (.badRequest "Bu anketi zaten beğenmişsiniz")) ∧
    (db.likes u pid = none →
      ∃ db', Users.like_poll db u pid now = .ok (db', "Anket beğenildi") ∧
        db'.likes u pid = some now ∧
        ∃ poll', db'.polls pid = some poll' ∧
          poll'.likes_count = poll.likes_count + 1) ∧
    (db.likes u pid = none →
      Users.unlike_poll db u pid = .error (.notFound "Bu anketi beğenmemişsiniz")) ∧
    (∀ t, db.likes u pid = some t →
      ∃ db', Users.unlike_poll db u pid = .ok (db', "Beğeni kaldırıldı") ∧
        db'.likes u pid = none ∧
        ∃ poll', db'.polls pid = some poll' ∧
          poll'.likes_count = poll.likes_count - 1) := by
  refine ⟨?_, ?_, ?_, ?_⟩
  · intro t ht
    simp [Users.like_poll, hp, hact, ht]
  · intro hl
    refine ⟨updPoll (setLike db u pid (some now)) pid
        (fun p => { p with likes_count := p.likes_count + 1 }),
      by simp [Users.like_poll, hp, hact, hl],
      by simp [updPoll, setLike],
      { poll with likes_count := poll.likes_count + 1 },
      by simp [updPoll, setLike, hp],
      rfl⟩
  · intro hl
    simp [Users.unlike_poll, hl]
  · intro t ht
    refine ⟨updPoll (setLike db u pid none) pid
        (fun p => { p with likes_count := p.likes_count - 1 }),
      by simp [Users.unlike_poll, ht],
      by simp [updPoll, setLike],
      { poll with likes_count := poll.likes_count - 1 },
      by simp [updPoll, setLike, hp],
      rfl⟩

/-- C8 witness: the like and unlike statement instantiated on the database where
user 7 already likes poll 1, at the unexpired instant 20. -/
theorem like_unlike_spec_witness :
    (dbLiked.polls 1 = some { pollA with likes_count := 1 } ∧
     ¬ ({ pollA with likes_count := 1 } : Poll).expires_at < 20) ∧
    ((∀ t, dbLiked.likes 7 1 = some t →
      Users.like_poll dbLiked 7 1 20 = .error (.badRequest "Bu anketi zaten beğenmişsiniz")) ∧
    (dbLiked.likes 7 1 = none →
      ∃ db', Users.like_poll dbLiked 7 1 20 = .ok (db', "Anket beğenildi") ∧
        db'.likes 7 1 = some 20 ∧
        ∃ poll', db'.polls 1 = some poll' ∧
          poll'.likes_count = ({ pollA with likes_count := 1 } : Poll).likes_count + 1) ∧
    (dbLiked.likes 7 1 = none →
      Users.unlike_poll dbLiked 7 1 = .error (.notFound "Bu anketi beğenmemişsiniz")) ∧
    (∀ t, dbLiked.likes 7 1 = some t →
      ∃ db', Users.unlike_poll dbLiked 7 1 = .ok (db', "Beğeni kaldırıldı") ∧
        db'.likes 7 1 = none ∧
        ∃ poll', db'.polls 1 = some poll' ∧
          poll'.likes_count = ({ pollA with likes_count := 1 } : Poll).likes_count - 1)) :=
  ⟨⟨rfl, by decide⟩, like_unlike_spec dbLiked 7 1 20 { pollA with likes_count := 1 } rfl (by decide)⟩

/-- C9 counterexample: user 2 with the editor flag set attempts to edit the active
comment 1 authored by user 1 and is rejected Forbidden, because `update_comment`
in comments.py checks only authorship and never consults the editor flag,
refuting the claim that an editor can edit a comment authored by someone else. -/
theorem editor_forbidden_on_foreign_comment_update :
    apiOutcome (Comments.update_comment dbComment 2 true 1 "düzeltilmiş yorum" 10) =
      .error (.forbidden "Bu yorumu düzenleme yetkiniz yok") := by
  decide

/-- C9 amended: for an existing active comment, editing succeeds exactly when the
requester is the author, failing Forbidden for everyone else including editors,
while soft-deleting succeeds exactly when the requester is the author or an
editor and fails Forbidden otherwise. -/
theorem comment_edit_delete_authz (db : DB) (u : Nat) (ed : Bool) (cid : Nat)
    (c : CommentRow) (content : String) (now : Nat)
    (hc : db.comments cid = some c) (hact : c.is_active = true) :
    (apiOutcome (Comments.update_comment db u ed cid content now) =
        .error (.forbidden "Bu yorumu düzenleme yetkiniz yok") ↔ c.user_id ≠ u) ∧
    (apiOutcome (Comments.update_comment db u ed cid content now) =
        .ok content ↔ c.user_id = u) ∧
    (apiOutcome (Comments.delete_comment db u ed cid) =
        .error (.forbidden "Bu yorumu silme yetkiniz yok") ↔ (c.user_id ≠ u ∧ ed = false)) ∧
    (apiOutcome (Comments.delete_comment db u ed cid) =
        .ok "Yorum silindi" ↔ (c.user_id = u ∨ ed = true)) := by
  refine ⟨?_, ?_, ?_, ?_⟩
  · by_cases h : c.user_id = u <;>
      simp [Comments.update_comment, Comments.findActiveComment, hc, hact, h,
        apiOutcome, Except.map]
  · by_cases h : c.user_id = u <;>
      simp [Comments.update_comment, Comments.findActiveComment, hc, hact, h,
        apiOutcome, Except.map]
  · by_cases h : c.user_id = u <;> cases ed <;>
      simp [Comments.delete_comment, Comments.findActiveComment, hc, hact, h,
        apiOutcome, Except.map]
  · by_cases h : c.user_id = u <;> cases ed <;>
      simp [Comments.delete_comment, Comments.findActiveComment, hc, hact, h,
        apiOutcome, Except.map]

/-- C9 witness: the authorization statement instantiated on the concrete comment
authored by user 1, with requester user 2 carrying the editor flag. -/
theorem comment_edit_delete_authz_witness :
    (dbComment.comments 1 = some commentA ∧ commentA.is_active = true) ∧
    ((apiOutcome (Comments.update_comment dbComment 2 true 1 "yeni içerik" 10) =
        .error (.forbidden "Bu yorumu düzenleme yetkiniz yok") ↔ commentA.user_id ≠ 2) ∧
    (apiOutcome (Comments.update_comment dbComment 2 true 1 "yeni içerik" 10) =
        .ok "yeni içerik" ↔ commentA.user_id = 2) ∧
    (apiOutcome (Comments.delete_comment dbComment 2 true 1) =
        .error (.forbidden "Bu yorumu silme yetkiniz yok") ↔
      (commentA.user_id ≠ 2 ∧ true = false)) ∧
    (apiOutcome (Comments.delete_comment dbComment 2 true 1) =
        .ok "Yorum silindi" ↔ (commentA.user_id = 2 ∨ true = true))) :=
  ⟨⟨rfl, rfl⟩, comment_edit_delete_authz dbComment 2 true 1 commentA "yeni içerik" 10 rfl rfl⟩

/-- Apply one delete attempt on a comment, keeping the state unchanged when the
endpoint rejects the attempt. -/
def applyDelete (user_id : Nat) (is_editor : Bool) (comment_id : Nat) (db : DB) : DB :=
  match Comments.delete_comment db user_id is_editor comment_id with
  | .ok (db', _) => db'
  | .error _ => db

/-- Iterate a number of delete attempts on a comment. -/
def deleteAttempts (user_id : Nat) (is_editor : Bool) (comment_id : Nat) :
    DB → Nat → DB
  | db, 0 => db
  | db, n + 1 =>
    deleteAttempts user_id is_editor comment_id (applyDelete user_id is_editor comment_id db) n

/-- C10: soft-deleting an active comment (as its author or an editor) only clears
the active flag — the row persists otherwise unchanged — and decrements the
owning poll comments counter by exactly 1; afterwards both edit and delete on the
same id fail NotFound for every requester, and any further number of delete
attempts leaves the state fixed, so the counter is decremented at most once. -/
theorem comment_soft_delete_once (db : DB) (u : Nat) (ed : Bool) (cid : Nat)
    (c : CommentRow) (u2 : Nat) (ed2 : Bool) (content : String) (now : Nat)
    (hc : db.comments cid = some c) (hact : c.is_active = true)
    (hauth : u = c.user_id ∨ ed = true) :
    ∃ db', Comments.delete_comment db u ed cid = .ok (db', "Yorum silindi") ∧
      db'.comments cid = some { c with is_active := false } ∧
      (db'.polls c.poll_id).map Poll.comments_count =
        (db.polls c.poll_id).map (fun p => p.comments_count - 1) ∧
      apiOutcome (Comments.update_comment db' u2 ed2 cid content now) =
        .error (.notFound "Yorum bulunamadı") ∧
      apiOutcome (Comments.delete_comment db' u2 ed2 cid) =
        .error (.notFound "Yorum bulunamadı") ∧
      (∀ n, deleteAttempts u2 ed2 cid db' n = db') := by
  refine ⟨updPoll (setComment db cid (some { c with is_active := false })) c.poll_id
      (fun p => { p with comments_count := p.comments_count - 1 }),
    by rcases hauth with h | h <;>
      simp [Comments.delete_comment, Comments.findActiveComment, hc, hact, h],
    ?_, ?_, ?_, ?_, ?_⟩
  · simp [updPoll, setComment]
  · simp [updPoll, setComment, Option.map_map]
    rfl
  · simp [Comments.update_comment, Comments.findActiveComment, updPoll, setComment,
      apiOutcome, Except.map]
  · simp [Comments.delete_comment, Comments.findActiveComment, updPoll, setComment,
      apiOutcome, Except.map]
  · have hfix : applyDelete u2 ed2 cid
        (updPoll (setComment db cid (some { c with is_active := false })) c.poll_id
          (fun p => { p with comments_count := p.comments_count - 1 })) =
        updPoll (setComment db cid (some { c with is_active := false })) c.poll_id
          (fun p => { p with comments_count := p.comments_count - 1 }) := by
      simp [applyDelete, Comments.delete_comment, Comments.findActiveComment,
        updPoll, setComment]
    intro n
    induction n with
    | zero => rfl
    | succ n ih => simpa [deleteAttempts, hfix] using ih

/-- C10 witness: the soft-delete statement instantiated on the concrete active
comment 1 of poll 1, deleted by its author user 1 and then re-attempted by the
editor user 2. -/
theorem comment_soft_delete_once_witness :
    (dbComment.comments 1 = some commentA ∧ commentA.is_active = true ∧
     (1 = commentA.user_id ∨ false = true)) ∧
    (∃ db', Comments.delete_comment dbComment 1 false 1 = .ok (db', "Yorum silindi") ∧
      db'.comments 1 = some { commentA with is_active := false } ∧
      (db'.polls commentA.poll_id).map Poll.comments_count =
        (dbComment.polls commentA.poll_id).map (fun p => p.comments_count - 1) ∧
      apiOutcome (Comments.update_comment db' 2 true 1 "tekrar" 30) =
        .error (.notFound "Yorum bulunamadı") ∧
      apiOutcome (Comments.delete_comment db' 2 true 1) =
        .error (.notFound "Yorum bulunamadı") ∧
      (∀ n, deleteAttempts 2 true 1 db' n = db')) :=
  ⟨⟨rfl, rfl, Or.inl rfl⟩,
   comment_soft_delete_once dbComment 1 false 1 commentA 2 true "tekrar" 30 rfl rfl
     (Or.inl rfl)⟩
